import Mathlib

/-!
Verification of the usage-aggregation core of the ai-budget-dashboard
repository (`tracker.py`, `jsonl_tracker.py`, `config.py`, `notifier.py`,
`main.py`, `providers/base.py`, `providers/anthropic_api.py`,
`providers/xai_api.py`).

The Python code is shallowly embedded: loosely typed Python values are the
inductive `Val`; `datetime` objects are `PyDT` records carrying the parsed
wall-clock fields plus an optional UTC-offset; operations that can raise a
Python exception return `Except String`; `float` arithmetic is idealized as
exact rational arithmetic (no claim here depends on binary rounding);
effectful inputs (the wall clock, HTTP responses, notification delivery)
are passed in as explicit parameters.
-/

namespace Py

/-- A parsed `datetime` value: wall-clock calendar fields plus the UTC
offset in minutes (`none` for a naive datetime).  `datetime.fromisoformat`
on an ISO-8601 string yields exactly these fields, without any conversion
to UTC, so an ISO timestamp string is represented in `Val` by the `PyDT`
it parses to (`vts` below); the literal trailing Z becomes offset 0 via
the replace of Z by +00:00 performed by both trackers. -/
structure PyDT where
  year : ℤ
  month : ℤ
  day : ℤ
  hour : ℤ
  minute : ℤ
  second : ℤ
  tz : Option ℤ
  deriving DecidableEq, Repr

/-- A loosely typed Python value as it appears in parsed JSON log entries.
`vts` stands for a string whose content is an ISO-8601 timestamp (kept in
parsed form; such a string is non-empty and is not a decimal numeral). -/
inductive Val where
  | vint (n : ℤ)
  | vfloat (q : ℚ)
  | vstr (s : String)
  | vbool (b : Bool)
  | vnone
  | vlist (l : List Val)
  | vdict (d : List (String × Val))
  | vts (t : PyDT)

/-- Python dict lookup `d[k]` as an option (first binding wins, as dict
keys are unique). -/
def dictGet? (d : List (String × Val)) (k : String) : Option Val :=
  d.lookup k

/-- Python `d.get(k, dflt)`. -/
def dictGetD (d : List (String × Val)) (k : String) (dflt : Val) : Val :=
  (dictGet? d k).getD dflt

/-- Python `d.get(k)` (default `None`). -/
def dictGetN (d : List (String × Val)) (k : String) : Val :=
  dictGetD d k Val.vnone

/-- Truncation of a rational toward zero, as Python `int(float)` does. -/
def ratTrunc (q : ℚ) : ℤ :=
  if 0 ≤ q then ⌊q⌋ else ⌈q⌉

/-- Floor of a rational. -/
def ratFloor (q : ℚ) : ℤ :=
  ⌊q⌋

/-- Value of a non-empty all-digit character list, `none` otherwise. -/
def digitsToNat? (cs : List Char) : Option ℕ :=
  if cs.isEmpty then none
  else if cs.all Char.isDigit then
    some (cs.foldl (fun n c => 10 * n + (c.toNat - 48)) 0)
  else none

/-- Strip leading and trailing spaces (the whitespace Python strips
around numerals; other whitespace kinds do not occur in these logs). -/
def strTrim (s : String) : String :=
  ⟨(((s.data.dropWhile (fun c => c = Char.ofNat 32)).reverse.dropWhile
      (fun c => c = Char.ofNat 32)).reverse)⟩

/-- Python `int(string)`: optional sign then decimal digits, tolerant of
surrounding spaces; `none` when the call raises `ValueError`.  45 and 43
are the minus and plus signs. -/
def strToInt? (s : String) : Option ℤ :=
  match (strTrim s).data with
  | [] => none
  | c :: cs =>
    if c = Char.ofNat 45 then (digitsToNat? cs).map (fun n => -(n : ℤ))
    else if c = Char.ofNat 43 then (digitsToNat? cs).map (fun n => (n : ℤ))
    else (digitsToNat? (c :: cs)).map (fun n => (n : ℤ))

/-- Python `int(value)` on a loose value: `none` when the call raises
(`TypeError`/`ValueError`).  Booleans are ints in Python; a numeric string
parses when it is a (signed) decimal integer numeral; an ISO timestamp
string, a float string with a fractional part, `None` and containers all
raise. -/
def pyToInt? : Val → Option ℤ
  | Val.vint n => some n
  | Val.vfloat q => some (ratTrunc q)
  | Val.vbool b => some (if b then 1 else 0)
  | Val.vstr s => strToInt? s
  | _ => none

/-- Parse a decimal float literal (optional sign, digits, optional
fractional part); scientific notation and specials are not modelled, as no
log field in this repository uses them. -/
def strToRat? (s : String) : Option ℚ :=
  let s := s.trim
  let (sign, body) :=
    if s.startsWith "-" then ((-1 : ℚ), s.drop 1)
    else if s.startsWith "+" then ((1 : ℚ), s.drop 1)
    else ((1 : ℚ), s)
  match body.split (fun c => c = Char.ofNat 46) with  -- 46 is the dot

  | [a] => (a.toNat?).map (fun n => sign * (n : ℚ))
  | [a, b] =>
    match a.toNat?, b.toNat? with
    | some na, some nb => some (sign * ((na : ℚ) + (nb : ℚ) / (10 ^ b.length)))
    | _, _ => none
  | _ => none

/-- Python `float(value)`: `none` when the call raises. -/
def pyToFloat? : Val → Option ℚ
  | Val.vint n => some n
  | Val.vfloat q => some q
  | Val.vbool b => some (if b then 1 else 0)
  | Val.vstr s => strToRat? s
  | _ => none

/-- The numeric content of a value for arithmetic (ints, floats and bools
are numbers in Python; everything else makes `+` and `/` with a number
raise `TypeError`). -/
def asNum? : Val → Option ℚ
  | Val.vint n => some n
  | Val.vfloat q => some q
  | Val.vbool b => some (if b then 1 else 0)
  | _ => none

/-- Python truthiness. -/
def pyTruthy : Val → Bool
  | Val.vint n => n ≠ 0
  | Val.vfloat q => q ≠ 0
  | Val.vbool b => b
  | Val.vstr s => s ≠ ""
  | Val.vnone => false
  | Val.vlist l => ¬ l.isEmpty
  | Val.vdict d => ¬ d.isEmpty
  | Val.vts _ => true

/-- Python `v + w` restricted to the shapes the trackers can meet:
number plus number, string plus string; anything else raises `TypeError`. -/
def pyAdd : Val → Val → Except String Val
  | Val.vint a, Val.vint b => Except.ok (Val.vint (a + b))
  | Val.vstr a, Val.vstr b => Except.ok (Val.vstr (a ++ b))
  | a, b =>
    match asNum? a, asNum? b with
    | some x, some y => Except.ok (Val.vfloat (x + y))
    | _, _ => Except.error "TypeError: unsupported operand types for +"

/-- Accumulate a loose value into a rational total (`total += v`), raising
`TypeError` when the value is not a number. -/
def addNum (acc : ℚ) (v : Val) : Except String ℚ :=
  match asNum? v with
  | some q => Except.ok (acc + q)
  | none => Except.error "TypeError: unsupported operand types for +"

/-- Python `v / m` for a literal positive divisor, raising `TypeError`
when `v` is not a number. -/
def divNum (v : Val) (m : ℚ) : Except String ℚ :=
  match asNum? v with
  | some q => Except.ok (q / m)
  | none => Except.error "TypeError: unsupported operand types for /"

/-- Python `v > 0` on a loose value: comparing a non-number with `0`
raises `TypeError`. -/
def gtZero : Val → Except String Bool
  | v =>
    match asNum? v with
    | some q => Except.ok (decide (0 < q))
    | none => Except.error "TypeError: not supported between instances"

/-- Comparison of a loose value with a fixed string (Python `==` between a
string and a non-string is `False`; `vts` stands for an ISO timestamp
string, never equal to a provider identifier). -/
def eqStr (v : Val) (s : String) : Bool :=
  match v with
  | Val.vstr t => t = s
  | _ => false

/-- Round-half-to-even on rationals, the behaviour of Python `round`. -/
def roundHalfEven (q : ℚ) : ℤ :=
  let f := ratFloor q
  let r := q - (f : ℚ)
  if r < 1/2 then f
  else if 1/2 < r then f + 1
  else if f % 2 = 0 then f else f + 1

/-- Python `round(q, 4)` idealized over the rationals. -/
def round4 (q : ℚ) : ℚ :=
  (roundHalfEven (q * 10000) : ℚ) / 10000

/-- Days from civil date (proleptic Gregorian) to Julian day number,
using floor divisions; standard calendar conversion. -/
def daysFromCivil (y m d : ℤ) : ℤ :=
  let a := Int.fdiv (14 - m) 12
  let y2 := y + 4800 - a
  let m2 := m + 12 * a - 3
  d + Int.fdiv (153 * m2 + 2) 5 + 365 * y2 + Int.fdiv y2 4
    - Int.fdiv y2 100 + Int.fdiv y2 400 - 32045

/-- Julian day number back to civil (year, month, day). -/
def civilFromDays (jdn : ℤ) : ℤ × ℤ × ℤ :=
  let a := jdn + 32044
  let b := Int.fdiv (4 * a + 3) 146097
  let c := a - Int.fdiv (146097 * b) 4
  let d2 := Int.fdiv (4 * c + 3) 1461
  let e := c - Int.fdiv (1461 * d2) 4
  let m2 := Int.fdiv (5 * e + 2) 153
  (100 * b + d2 - 4800 + Int.fdiv m2 10,
   m2 + 3 - 12 * Int.fdiv m2 10,
   e - Int.fdiv (153 * m2 + 2) 5 + 1)

/-- Python `datetime.fromtimestamp(x, tz=timezone.utc)`: seconds since
the epoch to a UTC datetime (fractional seconds floored away; only the
calendar fields matter to the trackers). -/
def dtFromTimestamp (x : ℚ) : PyDT :=
  let total := ratFloor x
  let days := Int.ediv total 86400
  let rem := Int.emod total 86400
  let c := civilFromDays (days + 2440588)
  ⟨c.1, c.2.1, c.2.2, Int.ediv rem 3600,
   Int.ediv (Int.emod rem 3600) 60, Int.emod rem 60, some 0⟩

/-- The UTC calendar (year, month) of the instant denoted by a parsed
timestamp: wall-clock fields shifted by the UTC offset (a naive timestamp
is taken at face value).  This definition follows the wording of the
specification (records are to be bucketed by UTC calendar month); the
trackers themselves are compared against it. -/
def specUtcYearMonth (t : PyDT) : ℤ × ℤ :=
  let off := t.tz.getD 0
  let total := daysFromCivil t.year t.month t.day * 1440 + t.hour * 60 + t.minute - off
  let c := civilFromDays (Int.fdiv total 1440)
  (c.1, c.2.1)

/-- Python `s.lower()` (character-wise; model identifiers are ASCII). -/
def lower (s : String) : String :=
  ⟨s.data.map Char.toLower⟩

/-- Python `s.startswith(p)` as a character-list check. -/
def strPrefixOf (p s : String) : Bool :=
  List.isPrefixOf p.data s.data

/-- Python `s.split(sep, 1)` restricted to a single character separator:
`none` when the separator does not occur (`sep in s` is false). -/
def splitOnce (sep : Char) (s : String) : Option (String × String) :=
  let pre := s.data.takeWhile (fun c => c ≠ sep)
  let rest := s.data.dropWhile (fun c => c ≠ sep)
  match rest with
  | [] => none
  | _ :: tail => some (⟨pre⟩, ⟨tail⟩)

/-- Python `str(value)` to the extent the trackers use it (the result only
feeds pricing and provider prefix matching).  Containers and timestamp
strings are rendered as stand-ins that, like their real counterparts,
never match a model-name key (real reprs start with a bracket or a
digit). -/
def pyStr : Val → String
  | Val.vstr s => s
  | Val.vint n => toString n
  | Val.vfloat q => toString q.num
  | Val.vbool b => if b then "True" else "False"
  | Val.vnone => "None"
  | Val.vts t => toString t.year ++ "-" ++ toString t.month ++ "-" ++ toString t.day
  | Val.vlist _ => "[...]"
  | Val.vdict _ => "{...}"

end Py

namespace tracker

open Py

/-- One pricing entry: USD per one million input and output tokens. -/
structure Pricing where
  input : ℚ
  output : ℚ
  deriving DecidableEq, Repr

/-- The static pricing table of tracker.py (insertion order preserved). -/
def PRICING : List (String × Pricing) :=
  [("claude-opus-4", ⟨15.0, 75.0⟩),
   ("claude-sonnet-4", ⟨3.0, 15.0⟩),
   ("claude-haiku-3.5", ⟨0.80, 4.0⟩),
   ("gpt-4o", ⟨2.50, 10.0⟩),
   ("gpt-4o-mini", ⟨0.15, 0.60⟩),
   ("o1", ⟨15.0, 60.0⟩),
   ("o3-mini", ⟨1.10, 4.40⟩),
   ("gemini-2.5-pro", ⟨1.25, 10.0⟩),
   ("gemini-2.0-flash", ⟨0.10, 0.40⟩),
   ("gemini-1.5-pro", ⟨1.25, 5.0⟩),
   ("grok-3", ⟨3.0, 15.0⟩),
   ("grok-3-mini", ⟨0.30, 0.50⟩)]

/-- Model-name-prefix to provider-id table of tracker.py. -/
def MODEL_PROVIDER_MAP : List (String × String) :=
  [("claude", "anthropic"),
   ("gpt", "openai"),
   ("o1", "openai"),
   ("o3", "openai"),
   ("gemini", "google"),
   ("grok", "xai")]

/-- tracker.py _get_provider_for_model: first prefix match in table
order. -/
def get_provider_for_model (model : String) : Option String :=
  let ml := lower model
  (MODEL_PROVIDER_MAP.find? (fun p => strPrefixOf p.1 ml)).map (fun p => p.2)

/-- tracker.py _get_pricing: exact key match first, then the first key in
table insertion order that is a prefix of the queried model name. -/
def get_pricing (model : String) : Option Pricing :=
  let ml := lower model
  match PRICING.lookup ml with
  | some p => some p
  | none => (PRICING.find? (fun kp => strPrefixOf kp.1 ml)).map (fun kp => kp.2)

/-- tracker.py _safe_int: `None` gives the default, otherwise `int(value)`
with the default on a raised coercion error. -/
def safe_int (v : Val) (default : ℤ := 0) : ℤ :=
  match v with
  | Val.vnone => default
  | _ => (pyToInt? v).getD default

/-- tracker.py _safe_float. -/
def safe_float (v : Val) (default : ℚ := 0) : ℚ :=
  match v with
  | Val.vnone => default
  | _ => (pyToFloat? v).getD default

/-- tracker.py _calculate_cost (no cache tiers in this variant). -/
def calculate_cost (model : String) (tokens_in tokens_out : ℤ) : ℚ :=
  match get_pricing model with
  | none => 0
  | some p =>
    ((tokens_in : ℚ) / 1000000) * p.input + ((tokens_out : ℚ) / 1000000) * p.output

/-- Totals accumulated by LocalTracker.get_monthly_usage. -/
structure LocalUsage where
  spend : ℚ
  tokens_in : ℤ
  tokens_out : ℤ
  deriving DecidableEq, Repr

/-- The timestamp-normalisation block of LocalTracker.get_monthly_usage:
a missing timestamp, an unparsable string, or a value of any other type
makes the record skip (`continue`); an ISO string keeps its wall-clock
fields and offset; a numeric epoch becomes a UTC datetime. -/
def entryTs? (entry : List (String × Val)) : Option PyDT :=
  match dictGetN entry "timestamp" with
  | Val.vnone => none
  | Val.vts t => some t
  | Val.vstr _ => none
  | Val.vint n => some (dtFromTimestamp n)
  | Val.vfloat q => some (dtFromTimestamp q)
  | _ => none

/-- The per-record cost rule of LocalTracker.get_monthly_usage lines
151-157: a present `cost` value (even zero or negative) is float-coerced
and used; only an absent or `None` cost falls back to the pricing
table. -/
def localCost (entry : List (String × Val)) (model : String)
    (tokens_in tokens_out : ℤ) : ℚ :=
  match dictGetN entry "cost" with
  | Val.vnone => calculate_cost model tokens_in tokens_out
  | raw => safe_float raw

/-- One loop iteration of LocalTracker.get_monthly_usage over one parsed
log entry, threading the (spend, tokens_in, tokens_out) accumulator. -/
def localStep (year month : ℤ) (provider_id : String)
    (acc : ℚ × ℤ × ℤ) (e : Val) : ℚ × ℤ × ℤ :=
  match e with
  | Val.vdict entry =>
    match entryTs? entry with
    | none => acc
    | some dt =>
      if dt.month = month ∧ dt.year = year then
        let model := pyStr (dictGetD entry "model" (Val.vstr ""))
        let entry_provider :=
          dictGetD entry "provider"
            (match get_provider_for_model model with
             | some p => Val.vstr p
             | none => Val.vnone)
        if eqStr entry_provider provider_id then
          let tokens_in :=
            safe_int (dictGetD entry "input_tokens" (dictGetD entry "tokens_in" (Val.vint 0)))
          let tokens_out :=
            safe_int (dictGetD entry "output_tokens" (dictGetD entry "tokens_out" (Val.vint 0)))
          let cost := localCost entry model tokens_in tokens_out
          (acc.1 + cost, acc.2.1 + tokens_in, acc.2.2 + tokens_out)
        else acc
      else acc
  | _ => acc

/-- LocalTracker.get_monthly_usage with the current UTC year and month
passed explicitly (the source reads them from the wall clock) and the
parsed log entries passed in place of the file scan.  Total by
construction: every token field goes through _safe_int and every cost
through _safe_float, so no record aborts this aggregation. -/
def monthly_usage (year month : ℤ) (provider_id : String)
    (entries : List Val) : LocalUsage :=
  let t := entries.foldl (localStep year month provider_id) (0, 0, 0)
  ⟨round4 t.1, t.2.1, t.2.2⟩

end tracker

namespace jsonl

open Py

/-- The (larger) pricing table of jsonl_tracker.py, insertion order
preserved; the overlapping prefixes gpt-4.1 and gpt-4.1-mini appear in
this order. -/
def PRICING : List (String × tracker.Pricing) :=
  [("claude-opus-4-6", ⟨15.0, 75.0⟩),
   ("claude-opus-4", ⟨15.0, 75.0⟩),
   ("claude-sonnet-4", ⟨3.0, 15.0⟩),
   ("claude-sonnet-4-5", ⟨3.0, 15.0⟩),
   ("claude-haiku-3.5", ⟨0.80, 4.0⟩),
   ("claude-haiku-3-5", ⟨0.80, 4.0⟩),
   ("gpt-4o", ⟨2.50, 10.0⟩),
   ("gpt-4o-mini", ⟨0.15, 0.60⟩),
   ("gpt-4.1", ⟨2.0, 8.0⟩),
   ("gpt-4.1-mini", ⟨0.40, 1.60⟩),
   ("gpt-4.1-nano", ⟨0.10, 0.40⟩),
   ("o1", ⟨15.0, 60.0⟩),
   ("o3", ⟨10.0, 40.0⟩),
   ("o3-mini", ⟨1.10, 4.40⟩),
   ("o4-mini", ⟨1.10, 4.40⟩),
   ("gpt-5.2-pro", ⟨10.0, 40.0⟩),
   ("gemini-2.5-pro", ⟨1.25, 10.0⟩),
   ("gemini-2.5-flash", ⟨0.15, 0.60⟩),
   ("gemini-2.0-flash", ⟨0.10, 0.40⟩),
   ("gemini-3-pro", ⟨1.25, 10.0⟩),
   ("gemini-1.5-pro", ⟨1.25, 5.0⟩),
   ("grok-3", ⟨3.0, 15.0⟩),
   ("grok-3-mini", ⟨0.30, 0.50⟩),
   ("grok-4", ⟨3.0, 15.0⟩)]

/-- Cache pricing multipliers of jsonl_tracker.py. -/
def CACHE_READ_MULTIPLIER : ℚ := 0.10

/-- Cache write multiplier (125 percent of the input price). -/
def CACHE_WRITE_MULTIPLIER : ℚ := 1.25

/-- jsonl_tracker.py _get_pricing: exact match, then the FIRST key in
table insertion order that is a prefix of the queried name (no
longest-prefix tie-break). -/
def get_pricing (model : String) : Option tracker.Pricing :=
  let ml := lower model
  match PRICING.lookup ml with
  | some p => some p
  | none => (PRICING.find? (fun kp => strPrefixOf kp.1 ml)).map (fun kp => kp.2)

/-- jsonl_tracker.py _calculate_cost: the token arguments arrive as raw
JSON values (the caller does not coerce them), so the divisions raise
`TypeError` on non-numeric input; an unpriced model short-circuits to
cost zero without touching the tokens. -/
def calculate_cost (model : String) (tokens_in tokens_out cache_read cache_write : Val) :
    Except String ℚ :=
  match get_pricing model with
  | none => Except.ok 0
  | some p => do
    let input_cost ← divNum tokens_in 1000000
    let output_cost ← divNum tokens_out 1000000
    let cache_read_cost ← divNum cache_read 1000000
    let cache_write_cost ← divNum cache_write 1000000
    Except.ok (input_cost * p.input + output_cost * p.output
      + cache_read_cost * p.input * CACHE_READ_MULTIPLIER
      + cache_write_cost * p.input * CACHE_WRITE_MULTIPLIER)

/-- One usage entry as yielded by JsonlTracker._parse_jsonl: a parsed
timestamp, a non-empty provider string, a model string, and the raw usage
dict. -/
structure JEntry where
  ts : PyDT
  provider : String
  model : String
  usage : List (String × Val)

/-- Totals returned by JsonlTracker._aggregate (token totals are loose
Python numbers, hence rationals). -/
structure JAgg where
  spend : ℚ
  tokens_in : ℚ
  tokens_out : ℚ
  requests : ℤ
  deriving DecidableEq, Repr

/-- The loop body of JsonlTracker._aggregate.  The token fields are taken
from the usage dict WITHOUT coercion; the cost branch follows
`if cost_total and cost_total > 0` (truthiness, then a comparison that
raises on a non-number); the token additions raise `TypeError` when a
field is not a number.  A raised error aborts the whole aggregation,
mirroring the absence of any try/except in the source loop. -/
def aggLoop (provider_id : String) (year month : ℤ) :
    List JEntry → (ℚ × ℚ × ℚ × ℤ) → Except String (ℚ × ℚ × ℚ × ℤ)
  | [], acc => Except.ok acc
  | e :: rest, acc =>
    if e.provider = provider_id then
      if e.ts.year = year ∧ e.ts.month = month then do
        let tokens_in := dictGetD e.usage "input" (Val.vint 0)
        let tokens_out := dictGetD e.usage "output" (Val.vint 0)
        let cache_read := dictGetD e.usage "cacheRead" (Val.vint 0)
        let cache_write := dictGetD e.usage "cacheWrite" (Val.vint 0)
        let cost_obj := dictGetD e.usage "cost" (Val.vdict [])
        let cost_total :=
          match cost_obj with
          | Val.vdict d => dictGetD d "total" (Val.vint 0)
          | _ => Val.vint 0
        let use_total ←
          if pyTruthy cost_total then gtZero cost_total else pure false
        let cost ←
          if use_total then
            pure ((asNum? cost_total).getD 0)
          else
            calculate_cost e.model tokens_in tokens_out cache_read cache_write
        let v1 ← pyAdd tokens_in cache_read
        let v2 ← pyAdd v1 cache_write
        let new_in ← addNum acc.2.1 v2
        let new_out ← addNum acc.2.2.1 tokens_out
        aggLoop provider_id year month rest
          (acc.1 + cost, new_in, new_out, acc.2.2.2 + 1)
      else aggLoop provider_id year month rest acc
    else aggLoop provider_id year month rest acc

/-- JsonlTracker._aggregate over pre-parsed entries, with the target year
and month explicit. -/
def aggregate (entries : List JEntry) (provider_id : String)
    (year month : ℤ) : Except String JAgg :=
  (aggLoop provider_id year month entries (0, 0, 0, 0)).map
    (fun t => ⟨round4 t.1, t.2.1, t.2.2.1, t.2.2.2⟩)

end jsonl

namespace config

open Py

/-- The alertThresholds part of config.py _validate_config: keep the
entries of a list value whose `int(t)` coercion succeeds and lands in
1..100 (so numeric strings and floats are kept after coercion, not
dropped); other entries are skipped by the except/range check. -/
def validated_thresholds (l : List Val) : List ℤ :=
  l.filterMap (fun t =>
    match pyToInt? t with
    | some v => if 1 ≤ v ∧ v ≤ 100 then some v else none
    | none => none)

/-- config.py _validate_config restricted to the alertThresholds value: a
non-list input is replaced by the default [80, 95] (which then survives
validation unchanged), and an empty survivor list falls back to the
default. -/
def validate_alert_thresholds (v : Val) : List ℤ :=
  match v with
  | Val.vlist l =>
    let r := validated_thresholds l
    if r.isEmpty then [80, 95] else r
  | _ => [80, 95]

/-- One provider entry of the validated config: budget and enabled
flag. -/
structure PConf where
  budget : ℚ
  enabled : Bool
  deriving DecidableEq, Repr

/-- config.py is_provider_enabled:
`config["providers"].get(pid, {}).get("enabled", False)`. -/
def is_provider_enabled (providers : List (String × PConf)) (provider_id : String) : Bool :=
  ((providers.lookup provider_id).map PConf.enabled).getD false

/-- config.py get_total_budget: the budgets of ALL enabled providers in
the config, independent of any fetch state. -/
def get_total_budget (providers : List (String × PConf)) : ℚ :=
  providers.foldl (fun total pc => if pc.2.enabled then total + pc.2.budget else total) 0

end config

namespace base

/-- The UsageData dataclass exactly as src/providers/base.py declares it:
provider_id, provider_name, current_spend, monthly_budget, tokens_in,
tokens_out, last_updated - and nothing else.  last_updated (a wall-clock
default) is omitted from the Lean record; no claim depends on it. -/
structure UsageData where
  provider_id : String
  provider_name : String
  current_spend : ℚ := 0
  monthly_budget : ℚ := 0
  tokens_in : ℤ := 0
  tokens_out : ℤ := 0
  deriving DecidableEq, Repr

/-- The keyword-argument names accepted by the UsageData dataclass
constructor of src/providers/base.py (its declared fields). -/
def usageDataFieldNames : List String :=
  ["provider_id", "provider_name", "current_spend", "monthly_budget",
   "tokens_in", "tokens_out", "last_updated"]

/-- A Python dataclass call with the given keyword-argument names: it
returns the constructed value only when every name is a declared field,
and raises `TypeError` otherwise.  Every UsageData construction site in
the provider embeddings goes through this check with its literal keyword
list. -/
def mkUsageData (kwargs : List String) (u : UsageData) : Except String UsageData :=
  if kwargs.all (fun k => usageDataFieldNames.contains k) then Except.ok u
  else Except.error "TypeError: unexpected keyword argument"

/-- base.py usage_percent property. -/
def usage_percent (u : UsageData) : ℚ :=
  if u.monthly_budget ≤ 0 then 0
  else min 100 (u.current_spend / u.monthly_budget * 100)

end base

namespace anthropic

open base

/-- AnthropicProvider.fetch_usage with the two Admin-API calls abstracted
as their outcomes: cost_api is the summed spend of _call_cost_api or a
raised error, usage_api the token counts of _call_usage_api or a raised
error.  Mirrors src/providers/anthropic_api.py lines 21-67: no key gives
a zero snapshot; a usage-API failure is swallowed with zero tokens; a
cost-API failure is CAUGHT by the outer except and turned into a returned
zero snapshot (it is not re-raised). -/
def fetch_usage (api_key : Option String) (budget : ℚ)
    (cost_api : Except String ℚ) (usage_api : Except String (ℤ × ℤ)) :
    Except String UsageData :=
  match api_key with
  | none =>
    mkUsageData ["provider_id", "provider_name", "monthly_budget"]
      { provider_id := "anthropic", provider_name := "Anthropic",
        monthly_budget := budget }
  | some _ =>
    match cost_api with
    | Except.ok spend =>
      let tokens :=
        match usage_api with
        | Except.ok t => t
        | Except.error _ => (0, 0)
      mkUsageData ["provider_id", "provider_name", "current_spend",
                   "monthly_budget", "tokens_in", "tokens_out"]
        { provider_id := "anthropic", provider_name := "Anthropic",
          current_spend := spend, monthly_budget := budget,
          tokens_in := tokens.1, tokens_out := tokens.2 }
    | Except.error _ =>
      mkUsageData ["provider_id", "provider_name", "monthly_budget"]
        { provider_id := "anthropic", provider_name := "Anthropic",
          monthly_budget := budget }

end anthropic

namespace xai

open base

/-- The summary a LocalTracker fallback provides to XAIProvider
(the dict returned by get_monthly_usage). -/
structure Tracked where
  spend : ℚ
  tokens_in : ℤ
  tokens_out : ℤ

/-- XAIProvider._resolve_credentials: a configured team id wins (with a
legacy team prefix stripped from the key), else the legacy
team_id:key split, else empty credentials. -/
def resolve_credentials (team_id : String) (api_key : String) : String × String :=
  if team_id ≠ "" then
    let mgmt_key :=
      match Py.splitOnce (Char.ofNat 58) api_key with
      | some p => p.2
      | none => api_key
    (team_id, mgmt_key)
  else
    match Py.splitOnce (Char.ofNat 58) api_key with
    | some p => (p.1, p.2)
    | none => ("", "")

/-- The result of _call_billing_api when it returns. -/
structure Billing where
  spend : ℚ
  tokens_in : ℤ
  tokens_out : ℤ

/-- XAIProvider.fetch_usage (src/providers/xai_api.py lines 37-104) with
the Management-API call abstracted as its outcome.  The decisive branch
for the fallback contract: when the billing call raised and a tracker is
present, the source constructs UsageData with an `error=` keyword
argument - a keyword the base.py dataclass does not declare - so that
construction raises `TypeError` instead of returning the annotated
snapshot. -/
def fetch_usage (api_key : Option String) (team_id : String)
    (tracker : Option Tracked) (billing_api : Except String Billing)
    (budget : ℚ) : Except String UsageData :=
  let billing_failed : Option (Except String Unit) :=
    match api_key with
    | none => none
    | some k =>
      let creds := resolve_credentials team_id k
      if creds.1 ≠ "" ∧ creds.2 ≠ "" then
        match billing_api with
        | Except.ok _ => none
        | Except.error e => some (Except.error e)
      else some (Except.ok ())
  match api_key, billing_failed with
  | some _, none =>
    match billing_api with
    | Except.ok r =>
      mkUsageData ["provider_id", "provider_name", "current_spend",
                   "monthly_budget", "tokens_in", "tokens_out"]
        { provider_id := "xai", provider_name := "xAI",
          current_spend := r.spend, monthly_budget := budget,
          tokens_in := r.tokens_in, tokens_out := r.tokens_out }
    | Except.error e => Except.error e
  | _, _ =>
    match tracker with
    | some tracked =>
      mkUsageData ["provider_id", "provider_name", "current_spend",
                   "monthly_budget", "tokens_in", "tokens_out", "error"]
        { provider_id := "xai", provider_name := "xAI",
          current_spend := tracked.spend, monthly_budget := budget,
          tokens_in := tracked.tokens_in, tokens_out := tracked.tokens_out }
    | none =>
      match billing_failed with
      | some (Except.error e) => Except.error e
      | _ =>
        mkUsageData ["provider_id", "provider_name", "monthly_budget"]
          { provider_id := "xai", provider_name := "xAI",
            monthly_budget := budget }

end xai

namespace notifier

/-- The key recorded in the sent-alerts set for one (provider, threshold)
pair.  The source stores the string built by the f-string
provider_id underscore threshold; as the threshold digits contain no
underscore, that string determines the pair uniquely, so the key is
modelled as the pair itself. -/
def alertKey (provider_id : String) (threshold : ℤ) : String × ℤ :=
  (provider_id, threshold)

/-- Insertion into an ascending list, for Python `sorted`. -/
def insertSorted (t : ℤ) : List ℤ → List ℤ
  | [] => [t]
  | x :: xs => if t ≤ x then t :: x :: xs else x :: insertSorted t xs

/-- Python `sorted(thresholds)` as insertion sort. -/
def sortInts : List ℤ → List ℤ
  | [] => []
  | x :: xs => insertSorted x (sortInts xs)

/-- The loop body of notifier.check_and_notify over an already sorted
threshold list.  `deliver` is the _send_notification collaborator (an
osascript call in the source), reported per key; the state is the
_sent_alerts set (as a list of keys).  Returns the new sent set together
with the list of keys for which a delivery was ATTEMPTED this call.
A key is added to the set only in the branch where deliver returned
true. -/
def checkLoop (deliver : String × ℤ → Bool) (provider_id : String)
    (usage_percent : ℚ) : List ℤ → List (String × ℤ) →
    List (String × ℤ) × List (String × ℤ)
  | [], sent => (sent, [])
  | t :: rest, sent =>
    if (t : ℚ) ≤ usage_percent ∧ alertKey provider_id t ∉ sent then
      if deliver (alertKey provider_id t) then
        ((checkLoop deliver provider_id usage_percent rest
            (alertKey provider_id t :: sent)).1,
         alertKey provider_id t ::
           (checkLoop deliver provider_id usage_percent rest
             (alertKey provider_id t :: sent)).2)
      else
        ((checkLoop deliver provider_id usage_percent rest sent).1,
         alertKey provider_id t ::
           (checkLoop deliver provider_id usage_percent rest sent).2)
    else
      checkLoop deliver provider_id usage_percent rest sent

/-- notifier.check_and_notify: iterate the sorted thresholds, attempting
delivery for each crossed, not-yet-sent pair, recording the pair only on
confirmed delivery. -/
def check_and_notify (deliver : String × ℤ → Bool) (provider_id : String)
    (usage_percent : ℚ) (thresholds : List ℤ) (sent : List (String × ℤ)) :
    List (String × ℤ) × List (String × ℤ) :=
  checkLoop deliver provider_id usage_percent (sortInts thresholds) sent

end notifier

namespace main

open base config

/-- The usage_data cache of BudgetDashboardApp: last successfully fetched
snapshot per provider id. -/
abbrev Cache := String → Option UsageData

/-- The provider loop of BudgetDashboardApp._refresh_data (src/main.py
lines 240-266) over the providers dict, as an ordered list of provider id
and fetch outcome.  A disabled provider is skipped; a raised fetch is
caught and skipped (`continue`).  After a SUCCESSFUL fetch the source
first reads `usage.error` (main.py line 254) and only then writes the
cache (lines 257-258); on the frozen UsageData dataclass of base.py,
which declares no error field, that attribute read raises AttributeError.
Nothing inside _refresh_data catches it, so the pass aborts there: the
result pairs the cache as mutated so far with the uncaught exception
(`none` when the loop ran to completion).  The attribute lookup is
modelled by membership of the name in the dataclass's declared field
list. -/
def refresh_pass (enabled : String → Bool) :
    Cache → List (String × Except String UsageData) → Cache × Option String
  | cache, [] => (cache, none)
  | cache, p :: rest =>
    if enabled p.1 then
      match p.2 with
      | Except.error _ => refresh_pass enabled cache rest
      | Except.ok usage =>
        if base.usageDataFieldNames.contains "error" then
          refresh_pass enabled (fun q => if q = p.1 then some usage else cache q) rest
        else
          (cache, some "AttributeError: UsageData object has no attribute error")
    else refresh_pass enabled cache rest

/-- BudgetDashboardApp._get_totals together with config.get_total_budget:
total spend is summed over the cached (successfully fetched) snapshots of
enabled providers; total budget is config.get_total_budget, summed over
ALL enabled providers of the config regardless of fetch state. -/
def get_totals (providers : List (String × PConf))
    (usage_data : List (String × UsageData)) : ℚ × ℚ :=
  (usage_data.foldl
    (fun total pu =>
      if is_provider_enabled providers pu.1 then total + pu.2.current_spend
      else total) 0,
   get_total_budget providers)

end main

/-- A parsed local log entry (the dict the trackers read) with an ISO
timestamp string, a provider field, a model field and the two token
fields, in the key layout the LocalTracker tests use. -/
def localEntry (t : Py.PyDT) (prov model : String) (tin tout : Py.Val) : Py.Val :=
  Py.Val.vdict
    [("timestamp", Py.Val.vts t), ("provider", Py.Val.vstr prov),
     ("model", Py.Val.vstr model), ("input_tokens", tin),
     ("output_tokens", tout)]

/-- The same entry shape with an explicit cost field appended. -/
def localEntryCost (t : Py.PyDT) (prov model : String)
    (tin tout c : Py.Val) : Py.Val :=
  Py.Val.vdict
    [("timestamp", Py.Val.vts t), ("provider", Py.Val.vstr prov),
     ("model", Py.Val.vstr model), ("input_tokens", tin),
     ("output_tokens", tout), ("cost", c)]

/-- A parsed local log entry whose timestamp is a numeric epoch value
(the other representation LocalTracker accepts). -/
def localEntryNum (epoch : ℤ) (prov model : String) (tin tout : Py.Val) : Py.Val :=
  Py.Val.vdict
    [("timestamp", Py.Val.vint epoch), ("provider", Py.Val.vstr prov),
     ("model", Py.Val.vstr model), ("input_tokens", tin),
     ("output_tokens", tout)]

/-- A JSONL session usage dict holding only token counts. -/
def jsonlUsage (tin tout : Py.Val) : List (String × Py.Val) :=
  [("input", tin), ("output", tout)]

/-- A JSONL session usage dict with token counts, cache counts and a
nested cost object carrying a total. -/
def jsonlUsageCost (tin tout cr cw : Py.Val) (total : Py.Val) :
    List (String × Py.Val) :=
  [("input", tin), ("output", tout), ("cacheRead", cr), ("cacheWrite", cw),
   ("cost", Py.Val.vdict [("total", total)])]


section Helpers

/-- Folding a guarded accumulation equals the sum over the filtered,
mapped list (shape of the two total loops in main.py and config.py). -/
theorem foldl_guard_sum {α : Type} (p : α → Bool) (f : α → ℚ) :
    ∀ (l : List α) (init : ℚ),
      l.foldl (fun t x => if p x then t + f x else t) init
        = init + ((l.filter p).map f).sum := by
  intro l
  induction l with
  | nil => intro init; simp
  | cons x xs ih =>
    intro init
    by_cases hx : p x
    · simp [List.foldl_cons, hx, ih, List.filter_cons, add_assoc]
    · simp [List.foldl_cons, hx, ih, List.filter_cons]

end Helpers

/-- C2: the pricing lookup of jsonl_tracker.py resolves the model name
gpt-4.1-mini-2025 to the gpt-4.1 entry (2.0 in, 8.0 out) - the FIRST
prefix match in table insertion order - although the more specific key
gpt-4.1-mini (0.40 in, 1.60 out) is registered, so the longest-prefix
rule the specification states does not hold on this input. -/
theorem jsonl_pricing_first_match_not_longest :
    jsonl.get_pricing "gpt-4.1-mini-2025" = some ⟨2.0, 8.0⟩ ∧
    jsonl.PRICING.lookup "gpt-4.1" = some ⟨2.0, 8.0⟩ ∧
    jsonl.PRICING.lookup "gpt-4.1-mini" = some ⟨0.40, 1.60⟩ ∧
    (⟨2.0, 8.0⟩ : tracker.Pricing) ≠ ⟨0.40, 1.60⟩ := by
  refine ⟨rfl, rfl, rfl, ?_⟩
  intro h
  rw [tracker.Pricing.mk.injEq] at h
  norm_num at h

/-- C3: AnthropicProvider.fetch_usage maps a raised cost-API call (here a
connection error), with the usage API healthy, to a RETURNED snapshot
with current_spend = 0 - it neither raises nor falls through to another
tier, so the caller overwrites the last-known-good snapshot with zeros. -/
theorem anthropic_cost_failure_returns_zero_snapshot :
    anthropic.fetch_usage (some "test-key") 80
        (Except.error "Connection error") (Except.ok (600000, 200000))
      = Except.ok
          { provider_id := "anthropic", provider_name := "Anthropic",
            current_spend := 0, monthly_budget := 80,
            tokens_in := 0, tokens_out := 0 } := rfl

/-- C8: on the billing-API-failed-then-local-tracker path, XAIProvider
.fetch_usage raises TypeError instead of returning an annotated snapshot,
because it passes the keyword argument error to the UsageData dataclass
of base.py, which declares no such field. -/
theorem xai_fallback_snapshot_construction_raises :
    xai.fetch_usage (some "team1:key1") "" (some ⟨3.0, 200000, 50000⟩)
        (Except.error "API error") 30
      = Except.error "TypeError: unexpected keyword argument" := rfl

/-- C9 counterexample: with anthropic (budget 80) and openai (budget 60)
both enabled but only anthropic successfully fetched, the totals are
(28.40, 140): the UNFETCHED enabled provider still contributes its 60 to
the returned total budget, contradicting the claim that both sums range
over enabled, successfully fetched providers only. -/
theorem total_budget_includes_unfetched_enabled_provider :
    main.get_totals
        [("anthropic", ⟨80, true⟩), ("openai", ⟨60, true⟩)]
        [("anthropic",
          { provider_id := "anthropic", provider_name := "Anthropic",
            current_spend := 28.40, monthly_budget := 80 })]
      = (28.40, 140) ∧ ((140 : ℚ) ≠ 80) := by
  constructor
  · simp only [main.get_totals, config.get_total_budget,
      config.is_provider_enabled, List.foldl_cons, List.foldl_nil,
      List.lookup, Prod.mk.injEq]
    norm_num
  · norm_num

/-- C9 as amended: the spend component of get_totals sums current_spend
over the cached snapshots of enabled providers, while the budget
component sums the budgets of ALL enabled providers of the config,
independent of which providers have a cached snapshot. -/
theorem get_totals_split_sums (providers : List (String × config.PConf))
    (usage_data : List (String × base.UsageData)) :
    main.get_totals providers usage_data
      = (((usage_data.filter
            (fun pu => config.is_provider_enabled providers pu.1)).map
            (fun pu => pu.2.current_spend)).sum,
         ((providers.filter (fun pc => pc.2.enabled)).map
            (fun pc => pc.2.budget)).sum) := by
  unfold main.get_totals config.get_total_budget
  rw [foldl_guard_sum (fun pu => config.is_provider_enabled providers pu.1)
        (fun pu => pu.2.current_spend) usage_data 0,
      foldl_guard_sum (fun pc => pc.2.enabled) (fun pc => pc.2.budget)
        providers 0]
  simp

/-- C10 counterexample: the float 50.5 is not an integer, yet config
validation does not drop it (which would leave no survivor and force the
default [80, 95]); it coerces it with int() to 50 and keeps it. -/
theorem alert_thresholds_float_coerced_not_dropped :
    config.validate_alert_thresholds (Py.Val.vlist [Py.Val.vfloat (101/2)])
      = [50] ∧ ([50] : List ℤ) ≠ [80, 95] := by
  constructor
  · have htr : Py.ratTrunc (101/2) = 50 := by
      unfold Py.ratTrunc
      rw [if_pos (by norm_num)]
      norm_num
    have h50 : Py.pyToInt? (Py.Val.vfloat (101/2)) = some 50 := by
      simp [Py.pyToInt?, htr]
    simp [config.validate_alert_thresholds, config.validated_thresholds, h50]
  · simp

/-- C10 as amended: after validation the alertThresholds value is always
a non-empty list of integers between 1 and 100; entries are first coerced
with int() (keeping integer-valued strings and truncated floats), and an
entry is dropped only when that coercion raises or the result is out of
range; a non-list value or an empty survivor list yields [80, 95]. -/
theorem alert_thresholds_validation_invariant (v : Py.Val) :
    config.validate_alert_thresholds v ≠ [] ∧
    ∀ t ∈ config.validate_alert_thresholds v, 1 ≤ t ∧ t ≤ 100 := by
  have hdefault : ([80, 95] : List ℤ) ≠ [] ∧
      ∀ t ∈ ([80, 95] : List ℤ), 1 ≤ t ∧ t ≤ 100 := by
    refine ⟨by simp, ?_⟩
    intro t ht
    simp only [List.mem_cons, List.not_mem_nil, or_false] at ht
    rcases ht with h80 | h95 <;> omega
  cases v with
  | vlist l =>
    cases h : (config.validated_thresholds l).isEmpty with
    | true =>
      have heq : config.validate_alert_thresholds (Py.Val.vlist l) = [80, 95] := by
        simp [config.validate_alert_thresholds, h]
      rw [heq]
      exact hdefault
    | false =>
      have heq : config.validate_alert_thresholds (Py.Val.vlist l)
          = config.validated_thresholds l := by
        simp [config.validate_alert_thresholds, h]
      rw [heq]
      constructor
      · intro hnil
        rw [hnil] at h
        simp at h
      · intro t ht
        unfold config.validated_thresholds at ht
        rcases List.mem_filterMap.mp ht with ⟨a, -, ha⟩
        cases hcoerce : Py.pyToInt? a with
        | none => rw [hcoerce] at ha; simp at ha
        | some n =>
          simp only [hcoerce] at ha
          by_cases hrange : 1 ≤ n ∧ n ≤ 100
          · rw [if_pos hrange] at ha
            simp only [Option.some.injEq] at ha
            omega
          · rw [if_neg hrange] at ha
            simp at ha
  | vint n => exact hdefault
  | vfloat q => exact hdefault
  | vstr s => exact hdefault
  | vbool b => exact hdefault
  | vnone => exact hdefault
  | vdict d => exact hdefault
  | vts t0 => exact hdefault

/-- C10 witness: the invariant applied to the empty list value, whose
validation yields the default [80, 95]. -/
theorem alert_thresholds_validation_invariant_witness :
    config.validate_alert_thresholds (Py.Val.vlist []) ≠ [] ∧
    (1 ≤ (80 : ℤ) ∧ (80 : ℤ) ≤ 100) :=
  ⟨(alert_thresholds_validation_invariant (Py.Val.vlist [])).1,
   (alert_thresholds_validation_invariant (Py.Val.vlist [])).2 80 (by decide)⟩

/-- C1: in a refresh pass over two enabled providers where the fetch of A
(anthropic) raises and the fetch of B (openai) returns a snapshot, the
pass ABORTS with AttributeError before caching B: the read of usage.error
at main.py line 254 precedes the cache write at lines 257-258, and the
frozen UsageData dataclass declares no error field.  The post-refresh
cache therefore does NOT map B to its new snapshot (it is unchanged on
both providers), refuting the claim on the frozen code. -/
theorem refresh_pass_aborts_before_cache_write :
    (main.refresh_pass (fun _ => true) (fun _ => none)
        [("anthropic", Except.error "API down"),
         ("openai", Except.ok
           { provider_id := "openai", provider_name := "OpenAI",
             current_spend := 12.30, monthly_budget := 60 })]).2
      = some "AttributeError: UsageData object has no attribute error" ∧
    (main.refresh_pass (fun _ => true) (fun _ => none)
        [("anthropic", Except.error "API down"),
         ("openai", Except.ok
           { provider_id := "openai", provider_name := "OpenAI",
             current_spend := 12.30, monthly_budget := 60 })]).1 "anthropic"
      = none ∧
    (main.refresh_pass (fun _ => true) (fun _ => none)
        [("anthropic", Except.error "API down"),
         ("openai", Except.ok
           { provider_id := "openai", provider_name := "OpenAI",
             current_spend := 12.30, monthly_budget := 60 })]).1 "openai"
      ≠ some { provider_id := "openai", provider_name := "OpenAI",
               current_spend := 12.30, monthly_budget := 60 } := by
  refine ⟨rfl, rfl, ?_⟩
  have h : (main.refresh_pass (fun _ => true) (fun _ => none)
      [("anthropic", Except.error "API down"),
       ("openai", Except.ok
         { provider_id := "openai", provider_name := "OpenAI",
           current_spend := 12.30, monthly_budget := 60 })]).1 "openai"
      = none := rfl
  rw [h]
  simp

/-- Any key in the sent set after a check loop was either sent before the
loop or had a confirmed delivery. -/
theorem checkLoop_mem_sent (d : String × ℤ → Bool) (pid : String) (pc : ℚ) :
    ∀ (l : List ℤ) (sent : List (String × ℤ)) (k : String × ℤ),
      k ∈ (notifier.checkLoop d pid pc l sent).1 → k ∈ sent ∨ d k = true := by
  intro l
  induction l with
  | nil => intro sent k hk; exact Or.inl hk
  | cons t rest ih =>
    intro sent k hk
    unfold notifier.checkLoop at hk
    by_cases hc : ((t : ℚ) ≤ pc ∧ notifier.alertKey pid t ∉ sent)
    · rw [if_pos hc] at hk
      by_cases hd : d (notifier.alertKey pid t) = true
      · rw [if_pos hd] at hk
        rcases ih (notifier.alertKey pid t :: sent) k hk with hmem | hdel
        · rcases List.mem_cons.mp hmem with heq | hmem2
          · right; rw [heq]; exact hd
          · left; exact hmem2
        · right; exact hdel
      · rw [if_neg hd] at hk
        exact ih sent k hk
    · rw [if_neg hc] at hk
      exact ih sent k hk

/-- The sent set only grows across a check loop. -/
theorem checkLoop_sent_mono (d : String × ℤ → Bool) (pid : String) (pc : ℚ) :
    ∀ (l : List ℤ) (sent : List (String × ℤ)) (k : String × ℤ),
      k ∈ sent → k ∈ (notifier.checkLoop d pid pc l sent).1 := by
  intro l
  induction l with
  | nil => intro sent k hk; exact hk
  | cons t rest ih =>
    intro sent k hk
    unfold notifier.checkLoop
    by_cases hc : ((t : ℚ) ≤ pc ∧ notifier.alertKey pid t ∉ sent)
    · rw [if_pos hc]
      by_cases hd : d (notifier.alertKey pid t) = true
      · rw [if_pos hd]
        exact ih _ k (List.mem_cons_of_mem _ hk)
      · rw [if_neg hd]
        exact ih sent k hk
    · rw [if_neg hc]
      exact ih sent k hk

/-- A crossed, not-yet-sent threshold whose delivery keeps failing is
attempted during the check loop. -/
theorem checkLoop_attempts (d : String × ℤ → Bool) (pid : String) (pc : ℚ) :
    ∀ (l : List ℤ) (sent : List (String × ℤ)) (t : ℤ),
      t ∈ l → (t : ℚ) ≤ pc → notifier.alertKey pid t ∉ sent →
      d (notifier.alertKey pid t) = false →
      notifier.alertKey pid t ∈ (notifier.checkLoop d pid pc l sent).2 := by
  intro l
  induction l with
  | nil => intro sent t ht; exact absurd ht (List.not_mem_nil t)
  | cons t0 rest ih =>
    intro sent t ht hp hk hd
    unfold notifier.checkLoop
    by_cases hkey : notifier.alertKey pid t = notifier.alertKey pid t0
    · have ht0p : (t0 : ℚ) ≤ pc := by
        have : t = t0 := by
          have := congrArg Prod.snd hkey
          simpa [notifier.alertKey] using this
        rw [← this]; exact hp
      have hk0 : notifier.alertKey pid t0 ∉ sent := by rw [← hkey]; exact hk
      rw [if_pos ⟨ht0p, hk0⟩]
      have hd0 : d (notifier.alertKey pid t0) = false := by rw [← hkey]; exact hd
      rw [if_neg (by simp [hd0])]
      exact List.mem_cons.mpr (Or.inl hkey)
    · have htrest : t ∈ rest := by
        rcases List.mem_cons.mp ht with heq | hr
        · exact absurd (by rw [heq]) hkey
        · exact hr
      by_cases hc : ((t0 : ℚ) ≤ pc ∧ notifier.alertKey pid t0 ∉ sent)
      · rw [if_pos hc]
        by_cases hd0 : d (notifier.alertKey pid t0) = true
        · rw [if_pos hd0]
          have hk2 : notifier.alertKey pid t ∉ notifier.alertKey pid t0 :: sent := by
            intro hmem
            rcases List.mem_cons.mp hmem with heq | hmem2
            · exact hkey heq
            · exact hk hmem2
          exact List.mem_cons_of_mem _ (ih _ t htrest hp hk2 hd)
        · rw [if_neg hd0]
          exact List.mem_cons_of_mem _ (ih sent t htrest hp hk hd)
      · rw [if_neg hc]
        exact ih sent t htrest hp hk hd

/-- A key already in the sent set is never attempted again by a check
loop. -/
theorem checkLoop_no_reattempt (d : String × ℤ → Bool) (pid : String) (pc : ℚ) :
    ∀ (l : List ℤ) (sent : List (String × ℤ)) (k : String × ℤ),
      k ∈ sent → k ∉ (notifier.checkLoop d pid pc l sent).2 := by
  intro l
  induction l with
  | nil => intro sent k _ hmem; exact absurd hmem (List.not_mem_nil k)
  | cons t0 rest ih =>
    intro sent k hk
    unfold notifier.checkLoop
    by_cases hc : ((t0 : ℚ) ≤ pc ∧ notifier.alertKey pid t0 ∉ sent)
    · have hne : k ≠ notifier.alertKey pid t0 := by
        intro heq; rw [heq] at hk; exact hc.2 hk
      rw [if_pos hc]
      by_cases hd0 : d (notifier.alertKey pid t0) = true
      · rw [if_pos hd0]
        intro hmem
        rcases List.mem_cons.mp hmem with heq | hmem2
        · exact hne heq
        · exact ih _ k (List.mem_cons_of_mem _ hk) hmem2
      · rw [if_neg hd0]
        intro hmem
        rcases List.mem_cons.mp hmem with heq | hmem2
        · exact hne heq
        · exact ih sent k hk hmem2
    · rw [if_neg hc]
      exact ih sent k hk

/-- A crossed threshold with a confirmed delivery ends up in the sent
set (whether or not it was there already). -/
theorem checkLoop_added (d : String × ℤ → Bool) (pid : String) (pc : ℚ) :
    ∀ (l : List ℤ) (sent : List (String × ℤ)) (t : ℤ),
      t ∈ l → (t : ℚ) ≤ pc → d (notifier.alertKey pid t) = true →
      notifier.alertKey pid t ∈ (notifier.checkLoop d pid pc l sent).1 := by
  intro l
  induction l with
  | nil => intro sent t ht; exact absurd ht (List.not_mem_nil t)
  | cons t0 rest ih =>
    intro sent t ht hp hd
    unfold notifier.checkLoop
    by_cases hkey : notifier.alertKey pid t = notifier.alertKey pid t0
    · have heqt : t = t0 := by
        have := congrArg Prod.snd hkey
        simpa [notifier.alertKey] using this
      by_cases hk0 : notifier.alertKey pid t0 ∈ sent
      · by_cases hc : ((t0 : ℚ) ≤ pc ∧ notifier.alertKey pid t0 ∉ sent)
        · exact absurd hk0 hc.2
        · rw [if_neg hc]
          exact checkLoop_sent_mono d pid pc rest sent _ (hkey ▸ hk0)
      · rw [if_pos ⟨heqt ▸ hp, hk0⟩]
        rw [if_pos (hkey ▸ hd)]
        exact checkLoop_sent_mono d pid pc rest _ _
          (hkey ▸ List.mem_cons_self (notifier.alertKey pid t0) sent)
    · have htrest : t ∈ rest := by
        rcases List.mem_cons.mp ht with heq | hr
        · exact absurd (by rw [heq]) hkey
        · exact hr
      by_cases hc : ((t0 : ℚ) ≤ pc ∧ notifier.alertKey pid t0 ∉ sent)
      · rw [if_pos hc]
        by_cases hd0 : d (notifier.alertKey pid t0) = true
        · rw [if_pos hd0]
          exact ih _ t htrest hp hd
        · rw [if_neg hd0]
          exact ih sent t htrest hp hd
      · rw [if_neg hc]
        exact ih sent t htrest hp hd

/-- Membership is preserved by sorted insertion. -/
theorem mem_insertSorted (t x : ℤ) :
    ∀ l : List ℤ, x ∈ notifier.insertSorted t l ↔ x = t ∨ x ∈ l := by
  intro l
  induction l with
  | nil => simp [notifier.insertSorted]
  | cons y ys ih =>
    unfold notifier.insertSorted
    by_cases h : t ≤ y
    · rw [if_pos h]; simp
    · rw [if_neg h]
      simp only [List.mem_cons, ih]
      tauto

/-- Sorting the thresholds preserves membership. -/
theorem mem_sortInts (x : ℤ) :
    ∀ l : List ℤ, x ∈ notifier.sortInts l ↔ x ∈ l := by
  intro l
  induction l with
  | nil => simp [notifier.sortInts]
  | cons y ys ih =>
    unfold notifier.sortInts
    rw [mem_insertSorted]
    simp [ih]

/-- C7: the alert protocol of notifier.check_and_notify for a crossed,
not-yet-notified (provider, threshold) pair: (1) any pair in the
post-check sent set was sent before or had a confirmed delivery; (2) if
delivery fails, the pair is still un-notified afterwards and the next
check call attempts delivery for it again; (3) once delivery succeeds the
pair is in the sent set and a next check call with the same usage percent
attempts no delivery for it. -/
theorem alert_state_confirmed_delivery_protocol
    (deliver : String × ℤ → Bool) (pid : String) (percent : ℚ)
    (thresholds : List ℤ) (sent : List (String × ℤ)) (t : ℤ)
    (ht : t ∈ thresholds) (hp : (t : ℚ) ≤ percent)
    (hk : notifier.alertKey pid t ∉ sent) :
    (∀ k, k ∈ (notifier.check_and_notify deliver pid percent thresholds sent).1 →
        k ∈ sent ∨ deliver k = true) ∧
    (deliver (notifier.alertKey pid t) = false →
        notifier.alertKey pid t ∉
          (notifier.check_and_notify deliver pid percent thresholds sent).1 ∧
        notifier.alertKey pid t ∈
          (notifier.check_and_notify deliver pid percent thresholds
            ((notifier.check_and_notify deliver pid percent thresholds sent).1)).2) ∧
    (deliver (notifier.alertKey pid t) = true →
        notifier.alertKey pid t ∈
          (notifier.check_and_notify deliver pid percent thresholds sent).1 ∧
        notifier.alertKey pid t ∉
          (notifier.check_and_notify deliver pid percent thresholds
            ((notifier.check_and_notify deliver pid percent thresholds sent).1)).2) := by
  refine ⟨?_, ?_, ?_⟩
  · intro k hkmem
    exact checkLoop_mem_sent deliver pid percent _ sent k hkmem
  · intro hd
    have hnot : notifier.alertKey pid t ∉
        (notifier.check_and_notify deliver pid percent thresholds sent).1 := by
      intro hin
      rcases checkLoop_mem_sent deliver pid percent _ sent _ hin with hs | hdel
      · exact hk hs
      · rw [hd] at hdel; exact Bool.false_ne_true hdel
    refine ⟨hnot, ?_⟩
    exact checkLoop_attempts deliver pid percent _ _ t
      ((mem_sortInts t thresholds).mpr ht) hp hnot hd
  · intro hd
    have hin : notifier.alertKey pid t ∈
        (notifier.check_and_notify deliver pid percent thresholds sent).1 :=
      checkLoop_added deliver pid percent _ sent t
        ((mem_sortInts t thresholds).mpr ht) hp hd
    exact ⟨hin, checkLoop_no_reattempt deliver pid percent _ _ _ hin⟩

/-- C7 witness: the protocol applied to a concrete check with thresholds
80 and 95 at 85 percent usage and delivery succeeding. -/
theorem alert_state_confirmed_delivery_protocol_witness :
    notifier.alertKey "anthropic" 80 ∈
      (notifier.check_and_notify (fun _ => true) "anthropic" 85 [80, 95] []).1 ∧
    notifier.alertKey "anthropic" 80 ∉
      (notifier.check_and_notify (fun _ => true) "anthropic" 85 [80, 95]
        ((notifier.check_and_notify (fun _ => true) "anthropic" 85 [80, 95] []).1)).2 :=
  (alert_state_confirmed_delivery_protocol (fun _ => true) "anthropic" 85
    [80, 95] [] 80 (by decide) (by norm_num) (by decide)).2.2 rfl

/-- A value whose int() coercion raises is coerced to the default 0 by
tracker.py _safe_int. -/
theorem safe_int_of_uncoercible (v : Py.Val) (h : Py.pyToInt? v = none) :
    tracker.safe_int v = 0 := by
  cases v <;> simp_all [tracker.safe_int, Py.pyToInt?]

/-- A value whose int() coercion raises is not a Python number, so
arithmetic on it raises TypeError. -/
theorem asNum_none_of_uncoercible (v : Py.Val) (h : Py.pyToInt? v = none) :
    Py.asNum? v = none := by
  cases v <;> simp_all [Py.asNum?, Py.pyToInt?]

/-- Evaluation of one LocalTracker loop iteration on a log entry without
a cost field: the month filter reads the wall-clock fields of the parsed
timestamp, the provider field is compared to the target, and both token
fields go through _safe_int. -/
theorem localStep_entry_eval (y m : ℤ) (pid : String) (acc : ℚ × ℤ × ℤ)
    (t : Py.PyDT) (prov model : String) (tin tout : Py.Val) :
    tracker.localStep y m pid acc (localEntry t prov model tin tout) =
      if t.month = m ∧ t.year = y then
        if prov = pid then
          (acc.1 + tracker.calculate_cost model (tracker.safe_int tin) (tracker.safe_int tout),
           acc.2.1 + tracker.safe_int tin, acc.2.2 + tracker.safe_int tout)
        else acc
      else acc := by
  simp [tracker.localStep, localEntry, tracker.entryTs?, Py.dictGetN, Py.dictGetD,
    Py.dictGet?, List.lookup, tracker.localCost, Py.pyStr, Py.eqStr]

/-- Evaluation of one LocalTracker loop iteration on a log entry with a
present (non-None) cost field: the explicit cost is float-coerced and
used, whatever its sign. -/
theorem localStep_entryCost_eval (y m : ℤ) (pid : String) (acc : ℚ × ℤ × ℤ)
    (t : Py.PyDT) (prov model : String) (tin tout c : Py.Val)
    (hc : c ≠ Py.Val.vnone) :
    tracker.localStep y m pid acc (localEntryCost t prov model tin tout c) =
      if t.month = m ∧ t.year = y then
        if prov = pid then
          (acc.1 + tracker.safe_float c,
           acc.2.1 + tracker.safe_int tin, acc.2.2 + tracker.safe_int tout)
        else acc
      else acc := by
  cases c <;>
    simp_all [tracker.localStep, localEntryCost, tracker.entryTs?, Py.dictGetN,
      Py.dictGetD, Py.dictGet?, List.lookup, tracker.localCost, Py.pyStr, Py.eqStr]

/-- Evaluation of one LocalTracker loop iteration on a log entry whose
timestamp is a numeric epoch value: the filter reads the calendar fields
of the UTC datetime the epoch converts to. -/
theorem localStep_entryNum_eval (y m : ℤ) (pid : String) (acc : ℚ × ℤ × ℤ)
    (n : ℤ) (prov model : String) (tin tout : Py.Val) :
    tracker.localStep y m pid acc (localEntryNum n prov model tin tout) =
      if (Py.dtFromTimestamp n).month = m ∧ (Py.dtFromTimestamp n).year = y then
        if prov = pid then
          (acc.1 + tracker.calculate_cost model (tracker.safe_int tin) (tracker.safe_int tout),
           acc.2.1 + tracker.safe_int tin, acc.2.2 + tracker.safe_int tout)
        else acc
      else acc := by
  simp [tracker.localStep, localEntryNum, tracker.entryTs?, Py.dictGetN, Py.dictGetD,
    Py.dictGet?, List.lookup, tracker.localCost, Py.pyStr, Py.eqStr]

/-- The epoch second count 1738368000 converts to the first instant of
UTC February 2025. -/
theorem dtFromTimestamp_feb2025 :
    Py.dtFromTimestamp ((1738368000 : ℤ) : ℚ) = ⟨2025, 2, 1, 0, 0, 0, some 0⟩ := by
  simp only [Py.dtFromTimestamp, Py.ratFloor, Rat.num_intCast, Rat.den_intCast,
    Int.floor_intCast]
  decide

/-- The epoch second count 1735689600 converts to the first instant of
UTC January 2025. -/
theorem dtFromTimestamp_jan2025 :
    Py.dtFromTimestamp ((1735689600 : ℤ) : ℚ) = ⟨2025, 1, 1, 0, 0, 0, some 0⟩ := by
  simp only [Py.dtFromTimestamp, Py.ratFloor, Rat.num_intCast, Rat.den_intCast,
    Int.floor_intCast]
  decide

/-- A session entry whose parsed timestamp has a wall-clock year or month
different from the target is skipped by the jsonl aggregation loop,
whatever its usage dict holds. -/
theorem jsonl_aggLoop_skip_of_month (pid : String) (y m : ℤ)
    (e : jsonl.JEntry) (rest : List jsonl.JEntry) (acc : ℚ × ℚ × ℚ × ℤ)
    (h : ¬(e.ts.year = y ∧ e.ts.month = m)) :
    jsonl.aggLoop pid y m (e :: rest) acc = jsonl.aggLoop pid y m rest acc := by
  by_cases hp : e.provider = pid
  · simp only [jsonl.aggLoop, if_pos hp, if_neg h]
  · simp only [jsonl.aggLoop, if_neg hp]

/-- On integer token counts the jsonl cost computation never raises and
returns the pricing-table formula (zero for an unpriced model). -/
theorem jsonl_calculate_cost_ints (model : String) (a b c d : ℤ) :
    jsonl.calculate_cost model (Py.Val.vint a) (Py.Val.vint b)
        (Py.Val.vint c) (Py.Val.vint d)
      = Except.ok (match jsonl.get_pricing model with
          | none => 0
          | some p => ((a : ℚ)/1000000) * p.input + ((b : ℚ)/1000000) * p.output
              + ((c : ℚ)/1000000) * p.input * jsonl.CACHE_READ_MULTIPLIER
              + ((d : ℚ)/1000000) * p.input * jsonl.CACHE_WRITE_MULTIPLIER) := by
  cases hp : jsonl.get_pricing model <;>
    simp [jsonl.calculate_cost, hp, Py.divNum, Py.asNum?, bind, Except.bind]

/-- A record timestamped exactly at the first instant of the target month
(UTC offset zero) with integer tokens and no cost object is counted by
the jsonl aggregation loop: spend, both token totals and the request
count all advance. -/
theorem jsonl_aggLoop_first_instant (y m : ℤ) (pid model : String)
    (tin tout : ℤ) (rest : List jsonl.JEntry) (acc : ℚ × ℚ × ℚ × ℤ) :
    ∃ c, jsonl.calculate_cost model (Py.Val.vint tin) (Py.Val.vint tout)
        (Py.Val.vint 0) (Py.Val.vint 0) = Except.ok c ∧
      jsonl.aggLoop pid y m
        (⟨⟨y, m, 1, 0, 0, 0, some 0⟩, pid, model,
          jsonlUsage (Py.Val.vint tin) (Py.Val.vint tout)⟩ :: rest) acc
        = jsonl.aggLoop pid y m rest
            (acc.1 + c, acc.2.1 + (tin : ℚ), acc.2.2.1 + (tout : ℚ),
             acc.2.2.2 + 1) := by
  refine ⟨_, jsonl_calculate_cost_ints model tin tout 0 0, ?_⟩
  simp [jsonl.aggLoop, jsonlUsage, Py.dictGetD, Py.dictGet?, List.lookup,
    Py.pyTruthy, Py.gtZero, Py.asNum?, Py.pyAdd, Py.addNum, bind, Except.bind,
    pure, Except.pure, jsonl_calculate_cost_ints]

/-- A strictly positive nested cost total short-circuits the pricing
computation in the jsonl aggregation loop and is used verbatim. -/
theorem jsonl_aggLoop_cost_pos (y m : ℤ) (pid model : String)
    (tin tout cr cw : ℤ) (ct : ℚ) (hct : 0 < ct)
    (rest : List jsonl.JEntry) (acc : ℚ × ℚ × ℚ × ℤ) :
    jsonl.aggLoop pid y m
      (⟨⟨y, m, 1, 0, 0, 0, some 0⟩, pid, model,
        jsonlUsageCost (Py.Val.vint tin) (Py.Val.vint tout) (Py.Val.vint cr)
          (Py.Val.vint cw) (Py.Val.vfloat ct)⟩ :: rest) acc
      = jsonl.aggLoop pid y m rest
          (acc.1 + ct, acc.2.1 + ((tin + cr + cw : ℤ) : ℚ),
           acc.2.2.1 + (tout : ℚ), acc.2.2.2 + 1) := by
  simp [jsonl.aggLoop, jsonlUsageCost, Py.dictGetD, Py.dictGet?, List.lookup,
    Py.pyTruthy, Py.gtZero, Py.asNum?, Py.pyAdd, Py.addNum, bind, Except.bind,
    pure, Except.pure, hct, ne_of_gt hct]

/-- A zero or negative nested cost total is NOT used by the jsonl
aggregation loop; the cost falls back to the pricing computation. -/
theorem jsonl_aggLoop_cost_nonpos (y m : ℤ) (pid model : String)
    (tin tout cr cw : ℤ) (ct : ℚ) (hct : ct ≤ 0)
    (rest : List jsonl.JEntry) (acc : ℚ × ℚ × ℚ × ℤ) :
    ∃ c, jsonl.calculate_cost model (Py.Val.vint tin) (Py.Val.vint tout)
        (Py.Val.vint cr) (Py.Val.vint cw) = Except.ok c ∧
      jsonl.aggLoop pid y m
        (⟨⟨y, m, 1, 0, 0, 0, some 0⟩, pid, model,
          jsonlUsageCost (Py.Val.vint tin) (Py.Val.vint tout) (Py.Val.vint cr)
            (Py.Val.vint cw) (Py.Val.vfloat ct)⟩ :: rest) acc
        = jsonl.aggLoop pid y m rest
            (acc.1 + c, acc.2.1 + ((tin + cr + cw : ℤ) : ℚ),
             acc.2.2.1 + (tout : ℚ), acc.2.2.2 + 1) := by
  refine ⟨_, jsonl_calculate_cost_ints model tin tout cr cw, ?_⟩
  rcases lt_or_eq_of_le hct with hneg | hz
  · simp [jsonl.aggLoop, jsonlUsageCost, Py.dictGetD, Py.dictGet?, List.lookup,
      Py.pyTruthy, Py.gtZero, Py.asNum?, Py.pyAdd, Py.addNum, bind, Except.bind,
      pure, Except.pure, jsonl_calculate_cost_ints, ne_of_lt hneg, not_lt.mpr hct]
  · subst hz
    simp [jsonl.aggLoop, jsonlUsageCost, Py.dictGetD, Py.dictGet?, List.lookup,
      Py.pyTruthy, Py.gtZero, Py.asNum?, Py.pyAdd, Py.addNum, bind, Except.bind,
      pure, Except.pure, jsonl_calculate_cost_ints]

/-- C4 counterexample: a single well-formed session entry whose usage
dict holds the string abc in its input token field makes JsonlTracker
aggregation raise TypeError (the string reaches the cost division
uncoerced) instead of coercing it to 0 and continuing. -/
theorem jsonl_aggregation_raises_on_string_tokens :
    jsonl.aggregate [⟨⟨2025, 9, 1, 0, 0, 0, some 0⟩, "anthropic",
      "claude-opus-4", jsonlUsage (Py.Val.vstr "abc") (Py.Val.vint 5)⟩]
      "anthropic" 2025 9
      = Except.error "TypeError: unsupported operand types for /" := rfl

/-- C4 as amended: the LocalTracker aggregation path coerces non-numeric
token fields to 0 through _safe_int and never aborts - replacing
uncoercible token values by 0 does not change its result - while the
JsonlTracker aggregation path uses the token values as-is, so a record
with a non-numeric token field makes it raise TypeError and abort. -/
theorem aggregation_token_coercion_split
    (t : Py.PyDT) (prov model : String) (tin tout : Py.Val)
    (h1 : Py.pyToInt? tin = none) (h2 : Py.pyToInt? tout = none)
    (y m : ℤ) (pid : String) (rest : List Py.Val) :
    tracker.monthly_usage y m pid (localEntry t prov model tin tout :: rest)
      = tracker.monthly_usage y m pid
          (localEntry t prov model (Py.Val.vint 0) (Py.Val.vint 0) :: rest) ∧
    jsonl.aggregate [⟨⟨2025, 9, 1, 0, 0, 0, some 0⟩, "anthropic",
      "claude-opus-4", jsonlUsage tin (Py.Val.vint 5)⟩] "anthropic" 2025 9
      = Except.error "TypeError: unsupported operand types for /" := by
  constructor
  · unfold tracker.monthly_usage
    rw [List.foldl_cons, List.foldl_cons, localStep_entry_eval, localStep_entry_eval,
      safe_int_of_uncoercible tin h1, safe_int_of_uncoercible tout h2]
    simp [tracker.safe_int, Py.pyToInt?]
  · have hn : Py.asNum? tin = none := asNum_none_of_uncoercible tin h1
    simp [jsonl.aggregate, jsonl.aggLoop, jsonlUsage, Py.dictGetD, Py.dictGet?,
      List.lookup, Py.pyTruthy, bind, Except.bind, Except.map,
      pure, Except.pure, jsonl.calculate_cost,
      show jsonl.get_pricing "claude-opus-4" = some ⟨15.0, 75.0⟩ from rfl,
      Py.divNum, hn]

/-- C4 witness: the split applied to the string not_a_number and None as
token values. -/
theorem aggregation_token_coercion_split_witness :
    tracker.monthly_usage 2025 9 "xai"
        [localEntry ⟨2025, 9, 1, 0, 0, 0, some 0⟩ "xai" "grok-3"
          (Py.Val.vstr "not_a_number") Py.Val.vnone]
      = tracker.monthly_usage 2025 9 "xai"
          [localEntry ⟨2025, 9, 1, 0, 0, 0, some 0⟩ "xai" "grok-3"
            (Py.Val.vint 0) (Py.Val.vint 0)] ∧
    jsonl.aggregate [⟨⟨2025, 9, 1, 0, 0, 0, some 0⟩, "anthropic",
      "claude-opus-4", jsonlUsage (Py.Val.vstr "not_a_number") (Py.Val.vint 5)⟩]
      "anthropic" 2025 9
      = Except.error "TypeError: unsupported operand types for /" :=
  aggregation_token_coercion_split ⟨2025, 9, 1, 0, 0, 0, some 0⟩ "xai" "grok-3"
    (Py.Val.vstr "not_a_number") Py.Val.vnone (by decide) rfl 2025 9 "xai" []

/-- C5 counterexample: a LocalTracker record with an explicit cost of 0
and one million grok-3 input tokens yields spend 0 - the present zero
cost is used verbatim - although the pricing-table computation the claim
prescribes for a zero explicit cost gives 3 dollars. -/
theorem local_explicit_zero_cost_used_verbatim :
    tracker.monthly_usage 2025 9 "xai"
      [localEntryCost ⟨2025, 9, 1, 0, 0, 0, some 0⟩ "xai" "grok-3"
        (Py.Val.vint 1000000) (Py.Val.vint 0) (Py.Val.vint 0)]
      = ⟨0, 1000000, 0⟩ ∧
    tracker.calculate_cost "grok-3" 1000000 0 = 3 ∧ (0 : ℚ) ≠ 3 := by
  refine ⟨?_, ?_, by norm_num⟩
  · unfold tracker.monthly_usage
    rw [List.foldl_cons, List.foldl_nil,
      localStep_entryCost_eval 2025 9 "xai" (0, 0, 0) ⟨2025, 9, 1, 0, 0, 0, some 0⟩
        "xai" "grok-3" (Py.Val.vint 1000000) (Py.Val.vint 0) (Py.Val.vint 0) (by simp)]
    simp [tracker.safe_float, tracker.safe_int, Py.pyToFloat?, Py.pyToInt?,
      Py.round4, Py.roundHalfEven, Py.ratFloor]
  · simp only [tracker.calculate_cost,
      show tracker.get_pricing "grok-3" = some ⟨3.0, 15.0⟩ from rfl]
    norm_num

/-- C5 as amended: the two aggregation paths choose the per-record cost
differently.  LocalTracker uses any PRESENT cost value verbatim after
float coercion - including zero and negative values - and computes from
the pricing table only when the cost key is absent or None; JsonlTracker
uses the nested cost total only when it is strictly positive, computing
from the pricing table for a zero or negative total. -/
theorem record_cost_choice_rules :
    (∀ (y m : ℤ) (pid model : String) (tin tout : ℤ) (c : Py.Val),
      c ≠ Py.Val.vnone →
      tracker.monthly_usage y m pid
        [localEntryCost ⟨y, m, 1, 0, 0, 0, some 0⟩ pid model
          (Py.Val.vint tin) (Py.Val.vint tout) c]
        = ⟨Py.round4 (tracker.safe_float c), tin, tout⟩) ∧
    (∀ (y m : ℤ) (pid model : String) (tin tout : ℤ),
      tracker.monthly_usage y m pid
        [localEntry ⟨y, m, 1, 0, 0, 0, some 0⟩ pid model
          (Py.Val.vint tin) (Py.Val.vint tout)]
        = ⟨Py.round4 (tracker.calculate_cost model tin tout), tin, tout⟩) ∧
    (∀ (y m : ℤ) (pid model : String) (tin tout cr cw : ℤ) (ct : ℚ),
      0 < ct →
      jsonl.aggregate [⟨⟨y, m, 1, 0, 0, 0, some 0⟩, pid, model,
        jsonlUsageCost (Py.Val.vint tin) (Py.Val.vint tout) (Py.Val.vint cr)
          (Py.Val.vint cw) (Py.Val.vfloat ct)⟩] pid y m
        = Except.ok ⟨Py.round4 ct, ((tin + cr + cw : ℤ) : ℚ), (tout : ℚ), 1⟩) ∧
    (∀ (y m : ℤ) (pid model : String) (tin tout cr cw : ℤ) (ct : ℚ),
      ct ≤ 0 →
      ∃ q, jsonl.calculate_cost model (Py.Val.vint tin) (Py.Val.vint tout)
          (Py.Val.vint cr) (Py.Val.vint cw) = Except.ok q ∧
        jsonl.aggregate [⟨⟨y, m, 1, 0, 0, 0, some 0⟩, pid, model,
          jsonlUsageCost (Py.Val.vint tin) (Py.Val.vint tout) (Py.Val.vint cr)
            (Py.Val.vint cw) (Py.Val.vfloat ct)⟩] pid y m
          = Except.ok ⟨Py.round4 q, ((tin + cr + cw : ℤ) : ℚ), (tout : ℚ), 1⟩) := by
  refine ⟨?_, ?_, ?_, ?_⟩
  · intro y m pid model tin tout c hc
    unfold tracker.monthly_usage
    rw [List.foldl_cons, List.foldl_nil,
      localStep_entryCost_eval y m pid (0, 0, 0) ⟨y, m, 1, 0, 0, 0, some 0⟩
        pid model (Py.Val.vint tin) (Py.Val.vint tout) c hc]
    simp [tracker.safe_int, Py.pyToInt?]
  · intro y m pid model tin tout
    unfold tracker.monthly_usage
    rw [List.foldl_cons, List.foldl_nil, localStep_entry_eval]
    simp [tracker.safe_int, Py.pyToInt?]
  · intro y m pid model tin tout cr cw ct hct
    unfold jsonl.aggregate
    rw [jsonl_aggLoop_cost_pos y m pid model tin tout cr cw ct hct [] (0, 0, 0, 0)]
    simp [jsonl.aggLoop, Except.map]
  · intro y m pid model tin tout cr cw ct hct
    rcases jsonl_aggLoop_cost_nonpos y m pid model tin tout cr cw ct hct []
      (0, 0, 0, 0) with ⟨q, hq, hloop⟩
    refine ⟨q, hq, ?_⟩
    unfold jsonl.aggregate
    rw [hloop]
    simp [jsonl.aggLoop, Except.map]

/-- C5 witness: the cost-choice rules applied at concrete records - an
explicit float cost of 2 on the local path and a positive nested total of
1 on the jsonl path. -/
theorem record_cost_choice_rules_witness :
    tracker.monthly_usage 2025 9 "xai"
      [localEntryCost ⟨2025, 9, 1, 0, 0, 0, some 0⟩ "xai" "grok-3"
        (Py.Val.vint 100) (Py.Val.vint 50) (Py.Val.vfloat 2)]
      = ⟨Py.round4 (tracker.safe_float (Py.Val.vfloat 2)), 100, 50⟩ ∧
    jsonl.aggregate [⟨⟨2025, 9, 1, 0, 0, 0, some 0⟩, "xai", "grok-3",
      jsonlUsageCost (Py.Val.vint 10) (Py.Val.vint 20) (Py.Val.vint 5)
        (Py.Val.vint 15) (Py.Val.vfloat 1)⟩] "xai" 2025 9
      = Except.ok ⟨Py.round4 1, ((10 + 5 + 15 : ℤ) : ℚ), ((20 : ℤ) : ℚ), 1⟩ :=
  ⟨record_cost_choice_rules.1 2025 9 "xai" "grok-3" 100 50 (Py.Val.vfloat 2)
      (fun h => Py.Val.noConfusion h),
   record_cost_choice_rules.2.2.1 2025 9 "xai" "grok-3" 10 20 5 15 1 one_pos⟩

/-- C6 counterexample: the timestamp 2025-02-01T03:00:00+09:00 denotes an
instant in UTC January 2025, yet the LocalTracker aggregation for
February 2025 counts the record (its 100 input tokens land in the
total), because the month filter reads the wall-clock month 2 of the
parsed timestamp without converting to UTC. -/
theorem local_includes_different_utc_month_record :
    Py.specUtcYearMonth ⟨2025, 2, 1, 3, 0, 0, some 540⟩ = (2025, 1) ∧
    ((2025 : ℤ), (1 : ℤ)) ≠ ((2025 : ℤ), (2 : ℤ)) ∧
    (tracker.monthly_usage 2025 2 "xai"
      [localEntry ⟨2025, 2, 1, 3, 0, 0, some 540⟩ "xai" "grok-3"
        (Py.Val.vint 100) (Py.Val.vint 50)]).tokens_in = 100 ∧
    ((100 : ℤ) ≠ 0) := by
  refine ⟨by decide, by decide, ?_, by decide⟩
  unfold tracker.monthly_usage
  rw [List.foldl_cons, List.foldl_nil, localStep_entry_eval]
  simp [tracker.safe_int, Py.pyToInt?]

/-- C6 as amended: the month filter of both aggregation paths compares
the wall-clock calendar fields of the parsed timestamp with the target
year and month (which equals the UTC month only when the offset is zero,
as in trailing-Z timestamps and numeric epochs).  In order: (1) a
LocalTracker ISO-timestamped record with a wall-clock mismatch
contributes nothing, wherever it sits in the log; (2) a LocalTracker
record at the first instant of the target month (offset zero) is counted
by every loop iteration that meets it; (3) a JsonlTracker record with a
wall-clock mismatch contributes nothing; (4) a JsonlTracker record at the
first instant of the target month is counted; (5) a LocalTracker record
with a numeric epoch timestamp whose UTC month or year differs from the
target contributes nothing; (6) a LocalTracker record with the epoch of
the first instant of UTC February 2025 is counted by a February 2025
aggregation. -/
theorem month_filter_wall_clock_rules :
    (∀ (y m : ℤ) (pid : String) (pre post : List Py.Val) (t : Py.PyDT)
       (prov model : String) (tin tout : Py.Val),
       ¬(t.month = m ∧ t.year = y) →
       tracker.monthly_usage y m pid
           (pre ++ localEntry t prov model tin tout :: post)
         = tracker.monthly_usage y m pid (pre ++ post)) ∧
    (∀ (y m : ℤ) (pid model : String) (tin tout : ℤ) (acc : ℚ × ℤ × ℤ),
       tracker.localStep y m pid acc
           (localEntry ⟨y, m, 1, 0, 0, 0, some 0⟩ pid model
             (Py.Val.vint tin) (Py.Val.vint tout))
         = (acc.1 + tracker.calculate_cost model tin tout,
            acc.2.1 + tin, acc.2.2 + tout)) ∧
    (∀ (y m : ℤ) (pid : String) (e : jsonl.JEntry)
       (rest : List jsonl.JEntry) (acc : ℚ × ℚ × ℚ × ℤ),
       ¬(e.ts.year = y ∧ e.ts.month = m) →
       jsonl.aggLoop pid y m (e :: rest) acc = jsonl.aggLoop pid y m rest acc) ∧
    (∀ (y m : ℤ) (pid model : String) (tin tout : ℤ)
       (rest : List jsonl.JEntry) (acc : ℚ × ℚ × ℚ × ℤ),
       ∃ c, jsonl.calculate_cost model (Py.Val.vint tin) (Py.Val.vint tout)
           (Py.Val.vint 0) (Py.Val.vint 0) = Except.ok c ∧
         jsonl.aggLoop pid y m
           (⟨⟨y, m, 1, 0, 0, 0, some 0⟩, pid, model,
             jsonlUsage (Py.Val.vint tin) (Py.Val.vint tout)⟩ :: rest) acc
           = jsonl.aggLoop pid y m rest
               (acc.1 + c, acc.2.1 + (tin : ℚ), acc.2.2.1 + (tout : ℚ),
                acc.2.2.2 + 1)) ∧
    (∀ (y m : ℤ) (pid : String) (n : ℤ) (prov model : String)
       (tin tout : Py.Val) (acc : ℚ × ℤ × ℤ),
       ¬((Py.dtFromTimestamp n).month = m ∧ (Py.dtFromTimestamp n).year = y) →
       tracker.localStep y m pid acc (localEntryNum n prov model tin tout) = acc) ∧
    (∀ acc : ℚ × ℤ × ℤ,
       tracker.localStep 2025 2 "xai" acc
           (localEntryNum 1738368000 "xai" "grok-3"
             (Py.Val.vint 100) (Py.Val.vint 50))
         = (acc.1 + tracker.calculate_cost "grok-3" 100 50,
            acc.2.1 + 100, acc.2.2 + 50)) := by
  refine ⟨?_, ?_, ?_, ?_, ?_, ?_⟩
  · intro y m pid pre post t prov model tin tout h
    unfold tracker.monthly_usage
    rw [List.foldl_append, List.foldl_append, List.foldl_cons,
      localStep_entry_eval, if_neg h]
  · intro y m pid model tin tout acc
    rw [localStep_entry_eval]
    simp [tracker.safe_int, Py.pyToInt?]
  · intro y m pid e rest acc h
    exact jsonl_aggLoop_skip_of_month pid y m e rest acc h
  · intro y m pid model tin tout rest acc
    exact jsonl_aggLoop_first_instant y m pid model tin tout rest acc
  · intro y m pid n prov model tin tout acc h
    rw [localStep_entryNum_eval, if_neg h]
  · intro acc
    have hc : (Py.dtFromTimestamp ((1738368000 : ℤ) : ℚ)).month = 2 ∧
        (Py.dtFromTimestamp ((1738368000 : ℤ) : ℚ)).year = 2025 := by
      rw [dtFromTimestamp_feb2025]
      exact ⟨rfl, rfl⟩
    rw [localStep_entryNum_eval, if_pos hc]
    simp [tracker.safe_int, Py.pyToInt?]

/-- C6 witness: a January-timestamped record (ISO, jsonl, and numeric
epoch forms) dropped from a February 2025 aggregation, and a
first-instant February record counted on both paths. -/
theorem month_filter_wall_clock_rules_witness :
    tracker.monthly_usage 2025 2 "xai"
        ([] ++ localEntry ⟨2025, 1, 15, 10, 0, 0, some 0⟩ "xai" "grok-3"
          (Py.Val.vint 999999) (Py.Val.vint 999999) :: [])
      = tracker.monthly_usage 2025 2 "xai" ([] ++ []) ∧
    jsonl.aggLoop "xai" 2025 2
        [⟨⟨2025, 1, 15, 10, 0, 0, some 0⟩, "xai", "grok-3",
          jsonlUsage (Py.Val.vint 7) (Py.Val.vint 3)⟩] (0, 0, 0, 0)
      = jsonl.aggLoop "xai" 2025 2 [] (0, 0, 0, 0) ∧
    tracker.localStep 2025 2 "xai" (0, 0, 0)
        (localEntryNum 1735689600 "xai" "grok-3"
          (Py.Val.vint 9) (Py.Val.vint 9))
      = (0, 0, 0) ∧
    ∃ c, jsonl.calculate_cost "grok-3" (Py.Val.vint 100) (Py.Val.vint 50)
        (Py.Val.vint 0) (Py.Val.vint 0) = Except.ok c ∧
      jsonl.aggLoop "xai" 2025 2
        (⟨⟨2025, 2, 1, 0, 0, 0, some 0⟩, "xai", "grok-3",
          jsonlUsage (Py.Val.vint 100) (Py.Val.vint 50)⟩ :: []) (0, 0, 0, 0)
        = jsonl.aggLoop "xai" 2025 2 []
            ((0 : ℚ) + c, (0 : ℚ) + (100 : ℚ), (0 : ℚ) + (50 : ℚ), (0 : ℤ) + 1) :=
  ⟨month_filter_wall_clock_rules.1 2025 2 "xai" [] []
      ⟨2025, 1, 15, 10, 0, 0, some 0⟩ "xai" "grok-3"
      (Py.Val.vint 999999) (Py.Val.vint 999999) (by decide),
   month_filter_wall_clock_rules.2.2.1 2025 2 "xai"
      ⟨⟨2025, 1, 15, 10, 0, 0, some 0⟩, "xai", "grok-3",
        jsonlUsage (Py.Val.vint 7) (Py.Val.vint 3)⟩ [] (0, 0, 0, 0) (by decide),
   month_filter_wall_clock_rules.2.2.2.2.1 2025 2 "xai" 1735689600
      "xai" "grok-3" (Py.Val.vint 9) (Py.Val.vint 9) (0, 0, 0)
      (by rw [dtFromTimestamp_jan2025]; decide),
   month_filter_wall_clock_rules.2.2.2.1 2025 2 "xai" "grok-3" 100 50 []
      (0, 0, 0, 0)⟩
